import Mathlib

/-!
Verification of the LyricMatch UI core against its specification.

The definitions below are a shallow embedding of the JavaScript/TypeScript
source under src/lyricmatch-ui (and the unnamed component files):
React component state is modelled as explicit records, event handlers and
the polling loop as state-transition functions, JavaScript truthiness and
parseInt coercions are made explicit, and machine numbers are Nat/Int.
The ranking backend (hybrid fusion) is not part of the UI sources and is
modelled from the specification where noted.
-/

/-! ## Capability tier tables (src/components/ConfigModal.jsx, lines 15-51) -/

/-- Per-tier allow-lists for the configuration modal, one record per tier of
the `tiers` object in ConfigModal.jsx. -/
structure TierConfig where
  whisper : List String
  engines : List String
  sbert : List String
  deriving Repr, DecidableEq

/-- The `tiers.free` entry of ConfigModal.jsx. -/
def tiersFree : TierConfig :=
  { whisper := ["tiny", "base"]
    engines := ["tfidf"]
    sbert := [] }

/-- The `tiers.premium` entry of ConfigModal.jsx. -/
def tiersPremium : TierConfig :=
  { whisper := ["tiny", "base", "small", "medium", "large"]
    engines := ["tfidf", "neural", "hybrid"]
    sbert := ["all-MiniLM-L6-v2", "all-mpnet-base-v2", "paraphrase-MiniLM-L6-v2"] }

/-- ConfigModal.jsx line 51: `const isLocked = (value, list) => !list.includes(value)`. -/
def isLocked (value : String) (list : List String) : Bool :=
  !(list.contains value)

/-- An option button in the modal is selectable exactly when it is not locked:
the button gets `disabled=\x7blocked\x7d` and its onClick handler is guarded by
`!locked` (ConfigModal.jsx lines 98-99, 145-147, 186-187). -/
def selectable (value : String) (list : List String) : Bool :=
  !(isLocked value list)

/-- C1: an option is selectable exactly when it is in the current tier allow-list
(isLocked value list holds iff value is not in list); under tier free the engine
allow-list is exactly ["tfidf"], so neural and hybrid are locked and not
selectable, while tier premium leaves all five whisper models, all three
engines and all three SBERT models unlocked. -/
theorem configModal_lock_policy :
    (∀ (v : String) (l : List String), isLocked v l = true ↔ v ∉ l) ∧
    tiersFree.engines = ["tfidf"] ∧
    isLocked "neural" tiersFree.engines = true ∧
    isLocked "hybrid" tiersFree.engines = true ∧
    selectable "neural" tiersFree.engines = false ∧
    selectable "hybrid" tiersFree.engines = false ∧
    tiersPremium.whisper.length = 5 ∧
    tiersPremium.engines.length = 3 ∧
    tiersPremium.sbert.length = 3 ∧
    (tiersPremium.whisper.all fun m => selectable m tiersPremium.whisper) = true ∧
    (tiersPremium.engines.all fun e => selectable e tiersPremium.engines) = true ∧
    (tiersPremium.sbert.all fun m => selectable m tiersPremium.sbert) = true := by
  refine ⟨fun v l => ?_, ?_, ?_, ?_, ?_, ?_, ?_, ?_, ?_, ?_, ?_, ?_⟩
  · simp [isLocked]
  all_goals decide

/-! ## Upload form data: the two uploadAudio implementations (C2)

src/utils/api.js lines 12-23 versus the inline uploadAudio in src/App.tsx
lines 2194-2214. A multipart form is modelled as the ordered list of
(field name, value) pairs appended to it. -/

/-- The config object assembled by ConfigModal (whisper_model, engine,
sbert_model); sbert_model is optional at the form-building site, where the
source guards on its JavaScript truthiness. -/
structure UploadConfig where
  whisper_model : String
  engine : String
  sbert_model : Option String
  deriving Repr, DecidableEq

/-- JavaScript truthiness of an optional string: undefined/null and the empty
string are falsy. -/
def jsTruthyStr : Option String → Bool
  | none => false
  | some s => !(s == "")

namespace ApiJs

/-- src/utils/api.js uploadAudio: builds a FormData with only the audio field;
the function takes a single parameter and any further arguments a caller
passes are dropped. -/
def uploadAudio (file : String) : List (String × String) :=
  [("audio", file)]

end ApiJs

namespace AppTsx

/-- src/App.tsx inline uploadAudio: appends audio, tier (from the component
closure), whisper_model, engine, and sbert_model when truthy. -/
def uploadAudio (currentTier : String) (file : String) (config : UploadConfig) :
    List (String × String) :=
  [("audio", file), ("tier", currentTier),
   ("whisper_model", config.whisper_model), ("engine", config.engine)] ++
  (if jsTruthyStr config.sbert_model then
    [("sbert_model", config.sbert_model.getD "")]
  else [])

end AppTsx

/-- C2 (code bug evidence): for the same file, config and tier, the api.js
uploadAudio called by App.jsx handleStartProcessing sends only the audio
field — the tier, whisper_model and engine fields required by the claim (and
by COMPONENT_REFERENCE.md, which documents uploadAudio(file, config, tier))
are absent — while the inline App.tsx uploadAudio sends all of them, so the
two implementations are not equivalent. -/
theorem uploadAudio_implementations_diverge :
    ApiJs.uploadAudio "clip.webm" = [("audio", "clip.webm")] ∧
    AppTsx.uploadAudio "free" "clip.webm"
        { whisper_model := "tiny", engine := "tfidf",
          sbert_model := some "all-MiniLM-L6-v2" } =
      [("audio", "clip.webm"), ("tier", "free"), ("whisper_model", "tiny"),
       ("engine", "tfidf"), ("sbert_model", "all-MiniLM-L6-v2")] ∧
    ApiJs.uploadAudio "clip.webm" ≠
      AppTsx.uploadAudio "free" "clip.webm"
        { whisper_model := "tiny", engine := "tfidf",
          sbert_model := some "all-MiniLM-L6-v2" } ∧
    "tier" ∉ (ApiJs.uploadAudio "clip.webm").map Prod.fst ∧
    "whisper_model" ∉ (ApiJs.uploadAudio "clip.webm").map Prod.fst ∧
    "engine" ∉ (ApiJs.uploadAudio "clip.webm").map Prod.fst := by
  refine ⟨rfl, by decide, by decide, by decide, by decide, by decide⟩

/-! ## Progress updates during polling (C3)

src/App.tsx lines 2242-2243 store the polled progress, and the ProcessingView
variants (src/App.tsx lines 1296-1299, src/unnamed/part_003 lines 130-133)
derive the displayed progress. A polled reading is the result of JavaScript
parseInt on an arbitrary status payload: some n when it parses to an integer,
none when it yields NaN. -/

/-- JavaScript `parseInt(x) || 0`: a NaN reading counts as 0. -/
def jsParseIntOr0 : Option Int → Int
  | some n => n
  | none => 0

/-- src/App.tsx lines 2242-2243:
`setProgress(prev => Math.max(prev, parseInt(statusData.progress) || 0))`. -/
def pollProgressUpdate (prev : Int) (reading : Option Int) : Int :=
  max prev (jsParseIntOr0 reading)

/-- ProcessingView: `Math.min(100, Math.max(0, parseInt(progress) || 0))`
applied to the numeric progress prop. -/
def safeProgress (progress : Int) : Int :=
  min 100 (max 0 progress)

/-- src/App.tsx lines 1296-1299 and src/unnamed/part_003 lines 130-133:
`setDisplayProgress(prev => Math.max(prev, safeProgress))`. -/
def displayProgressUpdate (prev : Int) (progress : Int) : Int :=
  max prev (safeProgress progress)

/-- The sequence of values a state variable takes when a step function is
folded over a list of inputs, starting from init (init included). -/
def stateTrace {α : Type} (f : Int → α → Int) (init : Int) : List α → List Int
  | [] => [init]
  | x :: xs => init :: stateTrace f (f init x) xs

theorem stateTrace_chain' {α : Type} (f : Int → α → Int)
    (h : ∀ a x, a ≤ f a x) (l : List α) :
    ∀ a : Int, List.Chain' (· ≤ ·) (stateTrace f a l) := by
  induction l with
  | nil => intro a; simp [stateTrace]
  | cons x xs ih =>
    intro a
    have hx := ih (f a x)
    cases xs with
    | nil => simpa [stateTrace] using h a x
    | cons y ys =>
      simp only [stateTrace] at hx ⊢
      exact List.chain'_cons.mpr ⟨h a x, hx⟩

theorem safeProgress_nonneg (p : Int) : 0 ≤ safeProgress p :=
  le_min (by norm_num) (le_max_left 0 p)

theorem safeProgress_le_100 (p : Int) : safeProgress p ≤ 100 :=
  min_le_left _ _

theorem displayTrace_mem_bounds (l : List Int) :
    ∀ d0 : Int, 0 ≤ d0 → d0 ≤ 100 →
      ∀ d ∈ stateTrace displayProgressUpdate d0 l, 0 ≤ d ∧ d ≤ 100 := by
  induction l with
  | nil =>
    intro d0 h0 h1 d hd
    simp only [stateTrace, List.mem_singleton] at hd
    subst hd; exact ⟨h0, h1⟩
  | cons p ps ih =>
    intro d0 h0 h1 d hd
    simp only [stateTrace, List.mem_cons] at hd
    rcases hd with rfl | hd
    · exact ⟨h0, h1⟩
    · exact ih (displayProgressUpdate d0 p)
        (le_trans h0 (le_max_left _ _))
        (max_le h1 (safeProgress_le_100 p)) d hd

/-- C3: for every job, over any sequence of polled readings the stored
progress is non-decreasing (each update takes the maximum of the previous
value and the parsed reading, with non-numeric readings counting as 0), the
displayed progress is non-decreasing, and the displayed progress always lies
in [0, 100] (each stored value is clamped before the display maximum is
taken; the display starts at 0). -/
theorem polled_progress_monotone_and_clamped :
    (∀ (p0 : Int) (rs : List (Option Int)),
       List.Chain' (· ≤ ·) (stateTrace pollProgressUpdate p0 rs)) ∧
    (∀ (d0 : Int) (ps : List Int),
       List.Chain' (· ≤ ·) (stateTrace displayProgressUpdate d0 ps)) ∧
    (∀ ps : List Int, ∀ d ∈ stateTrace displayProgressUpdate 0 ps,
       0 ≤ d ∧ d ≤ 100) := by
  refine ⟨?_, ?_, ?_⟩
  · intro p0 rs
    exact stateTrace_chain' pollProgressUpdate (fun a x => le_max_left _ _) rs p0
  · intro d0 ps
    exact stateTrace_chain' displayProgressUpdate (fun a x => le_max_left _ _) ps d0
  · intro ps d hd
    exact displayTrace_mem_bounds ps 0 (by norm_num) (by norm_num) d hd

/-- Witness for C3 at concrete inputs: a concrete polled trace is a chain, and
the displayed value 100 reached from reading 150 satisfies the bounds. -/
theorem polled_progress_monotone_and_clamped_witness :
    List.Chain' (· ≤ ·)
      (stateTrace pollProgressUpdate 0 [some 10, none, some 50]) ∧
    (0 ≤ (100 : Int) ∧ (100 : Int) ≤ 100) := by
  constructor
  · exact polled_progress_monotone_and_clamped.1 0 [some 10, none, some 50]
  · exact polled_progress_monotone_and_clamped.2.2 [150] 100 (by decide)

/-! ## The App component state machine (src/App.tsx lines 2222-2333)

React state, the hasTransitionedRef ref, and the poll interval are modelled
as one record; the interval callback and the event handlers are
state-transition functions. The completions field is a ghost counter, not in
the source, counting executions of the guarded completion-handling block. -/

/-- Error values recorded in the error state. The string formatting of the
file-size message (toFixed arithmetic) is abstracted into a structured
value carrying the data interpolated into it. -/
inductive AppError
  | msg (text : String)
  | fileTooLarge (sizeBytes limitBytes : Nat) (tier : String)
  deriving Repr, DecidableEq

/-- The results field of a status payload as a JavaScript value: absent or
falsy, a truthy or falsy non-array value, or an array of match entries.
Match entries are opaque to the state machine and abstracted as strings. -/
inductive JsResults
  | absent
  | notArray (truthy : Bool)
  | arr (entries : List String)
  deriving Repr, DecidableEq

/-- JavaScript truthiness of the results field; arrays are objects and
always truthy. -/
def jsTruthyResults : JsResults → Bool
  | .absent => false
  | .notArray t => t
  | .arr _ => true

/-- `Array.isArray(statusData.results)`. -/
def jsIsArray : JsResults → Bool
  | .arr _ => true
  | _ => false

/-- `statusData.results.length > 0` (false on the non-array cases, where the
short-circuited source never evaluates it). -/
def jsLengthPos : JsResults → Bool
  | .arr l => decide (0 < l.length)
  | _ => false

/-- JavaScript `x || fallback` on an optional string. -/
def jsOrStr (m : Option String) (fallback : String) : String :=
  match m with
  | some x => if x == "" then fallback else x
  | none => fallback

/-- The payload returned by one status poll (statusData). -/
structure StatusPayload where
  status : String
  progress : Option Int
  results : JsResults
  transcription : String
  language : String
  audio_info : String
  config_used : String
  error : Option String
  deriving Repr, DecidableEq

/-- The assembled results payload (resultsData, src/App.tsx lines 2253-2260). -/
structure ResultsData where
  topMatch : String
  alternatives : List String
  transcription : String
  language : String
  audioInfo : String
  configUsed : String
  deriving Repr, DecidableEq

/-- A browser File value: its name and size in bytes. -/
structure JsFile where
  name : String
  size : Nat
  deriving Repr, DecidableEq

/-- The App component state: React state hooks, the hasTransitionedRef ref,
whether the poll interval is still installed, the poll counter, and the
ghost completions counter. -/
structure AppState where
  view : String
  uploadedFile : Option JsFile
  jobId : Option String
  results : Option ResultsData
  progress : Int
  status : String
  error : Option AppError
  currentTier : String
  processingConfig : Option UploadConfig
  showConfigModal : Bool
  pendingFile : Option JsFile
  hasTransitioned : Bool
  intervalActive : Bool
  pollCount : Nat
  completions : Nat
  deriving Repr, DecidableEq

/-- src/App.tsx line 2227: `const maxPolls = 300`. -/
def maxPolls : Nat := 300

/-- src/App.tsx lines 2253-2260: resultsData assembled from a status payload
whose results array is nonempty (results[0] and results.slice(1)). -/
def assembleResults (d : StatusPayload) : Option ResultsData :=
  match d.results with
  | .arr (top :: rest) =>
      some { topMatch := top, alternatives := rest,
             transcription := d.transcription, language := d.language,
             audioInfo := d.audio_info, configUsed := d.config_used }
  | _ => none

/-- The per-tick bookkeeping every non-timeout poll performs before the
status dispatch (src/App.tsx lines 2231, 2242-2244): increment pollCount,
fold the parsed progress reading into the stored maximum, store the
status string. -/
def pollTick (s : AppState) (d : StatusPayload) : AppState :=
  { s with pollCount := s.pollCount + 1,
           progress := pollProgressUpdate s.progress d.progress,
           status := d.status }

/-- One execution of the poll interval callback (src/App.tsx lines
2229-2293). A cleared interval never fires again; setTimeout-deferred view
transitions are taken as performed. -/
def pollStep (s : AppState) (d : StatusPayload) : AppState :=
  if s.intervalActive = false then s
  else if s.pollCount + 1 > maxPolls then
    { s with pollCount := s.pollCount + 1, intervalActive := false,
             error := some (AppError.msg "Processing timeout - please try again"),
             view := "upload" }
  else if d.status = "complete" then
    if s.hasTransitioned then pollTick s d
    else if jsTruthyResults d.results && jsIsArray d.results &&
        jsLengthPos d.results then
      { pollTick s d with hasTransitioned := true, intervalActive := false,
                          completions := s.completions + 1,
                          results := assembleResults d, view := "results" }
    else
      { pollTick s d with hasTransitioned := true, intervalActive := false,
                          completions := s.completions + 1,
                          error := some
                            (AppError.msg "No matching songs found in database"),
                          view := "upload" }
  else if d.status = "error" then
    { pollTick s d with intervalActive := false,
                        error := some (AppError.msg
                          (jsOrStr d.error "An error occurred during processing")),
                        view := "upload" }
  else pollTick s d

/-- The poll interval run over a sequence of status payloads. -/
def runPoll (s : AppState) : List StatusPayload → AppState
  | [] => s
  | d :: ds => runPoll (pollStep s d) ds

/-- Invariant tying the ghost completions counter to the ref guard. -/
def pollInv (s : AppState) : Prop :=
  s.completions ≤ 1 ∧ (s.hasTransitioned = false → s.completions = 0)

theorem pollStep_inv (s : AppState) (d : StatusPayload) (h : pollInv s) :
    pollInv (pollStep s d) := by
  obtain ⟨h1, h2⟩ := h
  unfold pollInv pollStep pollTick
  split
  · exact ⟨h1, h2⟩
  split
  · exact ⟨h1, h2⟩
  split
  · split
    · exact ⟨h1, h2⟩
    next hT =>
      have hc : s.completions = 0 := h2 (by simpa using hT)
      split <;> simp [hc]
  split
  · exact ⟨h1, h2⟩
  · exact ⟨h1, h2⟩

theorem runPoll_inv (ds : List StatusPayload) :
    ∀ s : AppState, pollInv s → pollInv (runPoll s ds) := by
  induction ds with
  | nil => intro s h; exact h
  | cons d ds ih => intro s h; exact ih (pollStep s d) (pollStep_inv s d h)

/-- C4: the terminal completion handling executes at most once per job. From
any start of the polling effect (ref reset to false, ghost counter zero),
any sequence of polled payloads — including ones that keep returning status
complete — triggers the guarded completion block at most once; once the
interval is cleared a poll is a full no-op, and a complete poll observed
with the guard already set leaves the completions count, the results
payload and the view unchanged. -/
theorem completion_handling_at_most_once :
    (∀ (s0 : AppState) (ds : List StatusPayload),
       s0.hasTransitioned = false → s0.completions = 0 →
       (runPoll s0 ds).completions ≤ 1) ∧
    (∀ (s : AppState) (d : StatusPayload),
       s.intervalActive = false → pollStep s d = s) ∧
    (∀ (s : AppState) (d : StatusPayload),
       s.intervalActive = true → s.pollCount + 1 ≤ maxPolls →
       s.hasTransitioned = true → d.status = "complete" →
       (pollStep s d).completions = s.completions ∧
       (pollStep s d).results = s.results ∧
       (pollStep s d).view = s.view) := by
  refine ⟨?_, ?_, ?_⟩
  · intro s0 ds hT hC
    exact (runPoll_inv ds s0 ⟨by omega, fun _ => hC⟩).1
  · intro s d hI
    unfold pollStep
    simp [hI]
  · intro s d hI hN hT hS
    unfold pollStep pollTick
    simp [hI, hS, hT, Nat.not_lt.mpr hN]

/-- A processing-view state as it stands right after a job was submitted:
used to instantiate the poll-loop theorems at concrete inputs. -/
def demoState : AppState :=
  { view := "processing", uploadedFile := some ⟨"clip.webm", 1000⟩,
    jobId := some "job-1", results := none, progress := 0, status := "queued",
    error := none, currentTier := "free",
    processingConfig := some ⟨"tiny", "tfidf", none⟩,
    showConfigModal := false, pendingFile := none, hasTransitioned := false,
    intervalActive := true, pollCount := 0, completions := 0 }

/-- A status payload reporting completion with one match. -/
def demoComplete : StatusPayload :=
  { status := "complete", progress := some 100,
    results := .arr ["songA"], transcription := "la la", language := "en",
    audio_info := "", config_used := "", error := none }

/-- Witness for C4 at concrete inputs: two consecutive complete polls yield
one completion; a poll against a cleared interval is a no-op; a complete
poll with the guard already set changes none of the guarded state. -/
theorem completion_handling_at_most_once_witness :
    (runPoll demoState [demoComplete, demoComplete]).completions ≤ 1 ∧
    pollStep { demoState with intervalActive := false } demoComplete =
      { demoState with intervalActive := false } ∧
    ((pollStep { demoState with hasTransitioned := true } demoComplete).completions =
        ({ demoState with hasTransitioned := true } : AppState).completions ∧
     (pollStep { demoState with hasTransitioned := true } demoComplete).results =
        ({ demoState with hasTransitioned := true } : AppState).results ∧
     (pollStep { demoState with hasTransitioned := true } demoComplete).view =
        ({ demoState with hasTransitioned := true } : AppState).view) := by
  refine ⟨?_, ?_, ?_⟩
  · exact completion_handling_at_most_once.1 demoState [demoComplete, demoComplete]
      rfl rfl
  · exact completion_handling_at_most_once.2.1
      { demoState with intervalActive := false } demoComplete rfl
  · exact completion_handling_at_most_once.2.2
      { demoState with hasTransitioned := true } demoComplete rfl
      (by decide) rfl rfl

/-- C10: if a status poll returns complete but the results field is missing,
not an array, or an empty array, the completion branch records the error
message No matching songs found in database and moves the view back to
upload — never to results — and the stored results payload is untouched. -/
theorem empty_results_never_enter_results_view :
    ∀ (s : AppState) (d : StatusPayload),
      s.intervalActive = true → s.pollCount + 1 ≤ maxPolls →
      s.hasTransitioned = false → d.status = "complete" →
      (d.results = JsResults.absent ∨ (∃ t, d.results = JsResults.notArray t) ∨
        d.results = JsResults.arr []) →
      (pollStep s d).error =
        some (AppError.msg "No matching songs found in database") ∧
      (pollStep s d).view = "upload" ∧
      (pollStep s d).view ≠ "results" ∧
      (pollStep s d).results = s.results := by
  intro s d hI hN hT hS hr
  have hguard : (jsTruthyResults d.results && jsIsArray d.results &&
      jsLengthPos d.results) = false := by
    rcases hr with h | ⟨t, h⟩ | h <;>
      simp [h, jsTruthyResults, jsIsArray, jsLengthPos]
  unfold pollStep pollTick
  simp [hI, hS, hT, Nat.not_lt.mpr hN, hguard]

/-- Witness for C10 at a concrete input: a complete poll whose results field
is an empty array reports the no-match error and returns to upload. -/
theorem empty_results_never_enter_results_view_witness :
    (pollStep demoState { demoComplete with results := JsResults.arr [] }).error =
      some (AppError.msg "No matching songs found in database") ∧
    (pollStep demoState { demoComplete with results := JsResults.arr [] }).view =
      "upload" ∧
    (pollStep demoState { demoComplete with results := JsResults.arr [] }).view ≠
      "results" ∧
    (pollStep demoState { demoComplete with results := JsResults.arr [] }).results =
      demoState.results :=
  empty_results_never_enter_results_view demoState
    { demoComplete with results := JsResults.arr [] }
    rfl (by decide) rfl rfl (Or.inr (Or.inr rfl))

/-! ## Submission handlers (src/App.tsx lines 2298-2333) -/

/-- src/App.tsx line 2300: the per-tier upload size limit enforced when a
file is chosen. -/
def maxSize (currentTier : String) : Nat :=
  if currentTier = "premium" then 200 * 1024 * 1024 else 20 * 1024 * 1024

/-- src/App.tsx lines 2298-2309, handleFileUpload: an oversize file only
records an error; otherwise the file becomes pending and the configuration
modal opens. -/
def handleFileUpload (s : AppState) (file : JsFile) : AppState :=
  if file.size > maxSize s.currentTier then
    { s with error := some (AppError.fileTooLarge file.size
               (maxSize s.currentTier) s.currentTier) }
  else
    { s with pendingFile := some file, showConfigModal := true }

/-- The synchronous state writes handleStartProcessing performs before the
upload request (src/App.tsx lines 2312-2322), given a pending file. -/
def submitPrep (s : AppState) (config : UploadConfig) (f : JsFile) : AppState :=
  { s with showConfigModal := false, uploadedFile := some f,
           processingConfig := some config, view := "processing",
           progress := 0, error := none, status := "queued",
           hasTransitioned := false }

/-- src/App.tsx lines 2311-2333, handleStartProcessing: its resulting state
together with the list of upload requests it issued. The outcome argument is
the result of the awaited uploadAudio call: ok with the job id from the
response, or error with the optional err.message. -/
def handleStartProcessing (s : AppState) (config : UploadConfig)
    (outcome : Except (Option String) String) :
    AppState × List (List (String × String)) :=
  match s.pendingFile with
  | none => ({ s with showConfigModal := false }, [])
  | some f =>
    match outcome with
    | .ok jid =>
        ({ submitPrep s config f with jobId := some jid, pendingFile := none },
         [AppTsx.uploadAudio s.currentTier f.name config])
    | .error m =>
        ({ submitPrep s config f with
             error := some (AppError.msg (jsOrStr m "Failed to upload file")),
             view := "upload", pendingFile := none },
         [AppTsx.uploadAudio s.currentTier f.name config])

/-- C5: a rejected submission never creates a job. An oversize file only
records the error — the configuration modal is not opened, the pending file
is untouched, and (there being no pending file set by the rejection)
start-processing issues no upload request and changes nothing beyond closing
the modal; and when the upload request itself fails, the job id state is not
written, the view returns to upload, and the failure handling changes
nothing else beyond the error message and the cleared pending file. -/
theorem rejected_submission_creates_no_job :
    (∀ (s : AppState) (file : JsFile),
       file.size > maxSize s.currentTier →
       handleFileUpload s file =
         { s with error := some (AppError.fileTooLarge file.size
                    (maxSize s.currentTier) s.currentTier) }) ∧
    (∀ (s : AppState) (config : UploadConfig)
       (outcome : Except (Option String) String),
       s.pendingFile = none →
       handleStartProcessing s config outcome =
         ({ s with showConfigModal := false }, [])) ∧
    (∀ (s : AppState) (config : UploadConfig) (m : Option String) (f : JsFile),
       s.pendingFile = some f →
       (handleStartProcessing s config (.error m)).1.jobId = s.jobId ∧
       (handleStartProcessing s config (.error m)).1.view = "upload" ∧
       (handleStartProcessing s config (.error m)).1 =
         { submitPrep s config f with
             error := some (AppError.msg (jsOrStr m "Failed to upload file")),
             view := "upload", pendingFile := none }) := by
  refine ⟨?_, ?_, ?_⟩
  · intro s file h
    unfold handleFileUpload
    simp [h]
  · intro s config outcome h
    unfold handleStartProcessing
    rw [h]
  · intro s config m f h
    unfold handleStartProcessing
    rw [h]
    exact ⟨rfl, rfl, rfl⟩

/-- Witness for C5 at concrete inputs: a 30MB file on the free tier is
rejected with only an error recorded; start-processing without a pending
file is inert; a failed upload for a pending 1MB file stores no job id and
returns the view to upload. -/
theorem rejected_submission_creates_no_job_witness :
    handleFileUpload demoState ⟨"big.webm", 30 * 1024 * 1024⟩ =
      { demoState with error := some (AppError.fileTooLarge (30 * 1024 * 1024)
                 (maxSize demoState.currentTier) demoState.currentTier) } ∧
    handleStartProcessing demoState ⟨"tiny", "tfidf", none⟩
        (.error (some "network down")) =
      ({ demoState with showConfigModal := false }, []) ∧
    ((handleStartProcessing
        { demoState with pendingFile := some ⟨"clip.webm", 1024⟩ }
        ⟨"tiny", "tfidf", none⟩ (.error (some "network down"))).1.jobId =
      ({ demoState with pendingFile := some ⟨"clip.webm", 1024⟩ } : AppState).jobId ∧
     (handleStartProcessing
        { demoState with pendingFile := some ⟨"clip.webm", 1024⟩ }
        ⟨"tiny", "tfidf", none⟩ (.error (some "network down"))).1.view =
      "upload") := by
  refine ⟨?_, ?_, ?_, ?_⟩
  · exact rejected_submission_creates_no_job.1 demoState
      ⟨"big.webm", 30 * 1024 * 1024⟩ (by decide)
  · exact rejected_submission_creates_no_job.2.1 demoState
      ⟨"tiny", "tfidf", none⟩ (.error (some "network down")) rfl
  · exact (rejected_submission_creates_no_job.2.2
      { demoState with pendingFile := some ⟨"clip.webm", 1024⟩ }
      ⟨"tiny", "tfidf", none⟩ (some "network down") ⟨"clip.webm", 1024⟩ rfl).1
  · exact (rejected_submission_creates_no_job.2.2
      { demoState with pendingFile := some ⟨"clip.webm", 1024⟩ }
      ⟨"tiny", "tfidf", none⟩ (some "network down") ⟨"clip.webm", 1024⟩ rfl).2.1

/-! ## Tier selection cards (src/App.tsx lines 408-450, TierSelectionModal) -/

/-- One entry of the tiers array rendered by TierSelectionModal. -/
structure TierCard where
  id : String
  name : String
  price : String
  period : String
  features : List String
  limitations : List String
  popular : Bool
  deriving Repr, DecidableEq

/-- The free card of TierSelectionModal (src/App.tsx lines 411-430). -/
def tierCardFree : TierCard :=
  { id := "free", name := "Free", price := "$0", period := "forever",
    features := ["Basic TF-IDF matching", "Tiny & Base Whisper models",
                 "Fast processing", "Up to 5 searches per day",
                 "10MB max file size"],
    limitations := ["No neural embeddings", "No hybrid matching",
                    "Limited models"],
    popular := false }

/-- The premium card of TierSelectionModal (src/App.tsx lines 431-449). -/
def tierCardPremium : TierCard :=
  { id := "premium", name := "Premium", price := "FREE", period := "beta access",
    features := ["Advanced Neural Embeddings (BERT)",
                 "Hybrid matching algorithms",
                 "All Whisper models (tiny → large)", "Unlimited searches",
                 "50MB max file size", "Priority processing",
                 "Higher accuracy results", "Multiple SBERT models"],
    limitations := [],
    popular := true }

/-- C6 counterexample: at tier free, handleFileUpload enforces a
20MB limit while the tier-selection card advertises a 10MB maximum, so the
enforced maximum does not equal the advertised one. -/
theorem upload_limit_advertised_mismatch :
    maxSize "free" = 20 * 1024 * 1024 ∧
    "10MB max file size" ∈ tierCardFree.features ∧
    maxSize "free" ≠ 10 * 1024 * 1024 := by
  refine ⟨rfl, by decide, by decide⟩

/-- C6 (amended): the maximum upload size enforced when a file is chosen is
20MB for the free tier and 200MB for premium — double and quadruple the
10MB and 50MB limits advertised by the tier-selection view — so the
enforced and advertised limits differ for both tiers. -/
theorem upload_limit_enforced_vs_advertised :
    maxSize "free" = 20 * 1024 * 1024 ∧
    maxSize "premium" = 200 * 1024 * 1024 ∧
    "10MB max file size" ∈ tierCardFree.features ∧
    "50MB max file size" ∈ tierCardPremium.features ∧
    maxSize "free" = 2 * (10 * 1024 * 1024) ∧
    maxSize "premium" = 4 * (50 * 1024 * 1024) ∧
    maxSize "free" ≠ 10 * 1024 * 1024 ∧
    maxSize "premium" ≠ 50 * 1024 * 1024 := by
  refine ⟨rfl, rfl, by decide, by decide, by decide, by decide, by decide,
    by decide⟩

/-! ## Stage completion in the processing views (C7)

Three variants of the processing view exist: the standalone ProcessingView
of src/unnamed/part_003 lines 1-119 (V1), the components/ProcessingView.jsx
of src/unnamed/part_003 lines 121-218 (V2), and the inline ProcessingView of
src/App.tsx lines 1293-1384 (V3). -/

namespace ProcessingViewV1

/-- The per-stage threshold object of V1 (part_003 lines 81-87). -/
def thresholds : List (String × Int) :=
  [("queued", 0), ("preprocessing", 10), ("transcribing", 30),
   ("matching", 70), ("complete", 100)]

/-- V1 line 88: `const isCompleted = safeProgress > threshold` — strict. -/
def isCompleted (safeProgressValue threshold : Int) : Bool :=
  safeProgressValue > threshold

end ProcessingViewV1

namespace ProcessingViewV2

/-- The stages object of V2 with its minProgress values (part_003 lines
135-141). -/
def thresholds : List (String × Int) :=
  [("queued", 0), ("preprocessing", 10), ("transcribing", 30),
   ("matching", 70), ("complete", 100)]

/-- V2 line 202: `const isCompleted = displayProgress >= stage.minProgress`. -/
def isCompleted (displayProgressValue minProgress : Int) : Bool :=
  displayProgressValue ≥ minProgress

end ProcessingViewV2

namespace ProcessingViewV3

/-- The stages object of V3 with its minProgress values (src/App.tsx lines
1301-1307). -/
def thresholds : List (String × Int) :=
  [("queued", 0), ("preprocessing", 10), ("transcribing", 30),
   ("matching", 70), ("complete", 100)]

/-- V3 line 1368: `const isCompleted = displayProgress >= stage.minProgress`. -/
def isCompleted (displayProgressValue minProgress : Int) : Bool :=
  displayProgressValue ≥ minProgress

end ProcessingViewV3

/-- C7 counterexample: in the part_003 standalone variant, at displayed
progress 0 the queued stage (threshold 0) is not marked completed although
0 ≥ 0, refuting that every variant marks a stage completed exactly when the
displayed progress reaches its threshold. -/
theorem stage_completion_strict_variant_counterexample :
    ("queued", (0 : Int)) ∈ ProcessingViewV1.thresholds ∧
    ProcessingViewV1.isCompleted 0 0 = false ∧
    (0 : Int) ≥ 0 := by
  refine ⟨by decide, by decide, by decide⟩

/-- C7 (amended): all three processing-view variants associate the same
fixed thresholds with the job states — queued 0, preprocessing 10,
transcribing 30, matching 70, complete 100; the components/ProcessingView.jsx
and App.tsx variants mark a stage completed exactly when the displayed
progress is at least the threshold, while the part_003 standalone variant
marks it completed exactly when the displayed progress strictly exceeds the
threshold. -/
theorem stage_completion_thresholds :
    ProcessingViewV1.thresholds =
      [("queued", 0), ("preprocessing", 10), ("transcribing", 30),
       ("matching", 70), ("complete", 100)] ∧
    ProcessingViewV2.thresholds = ProcessingViewV1.thresholds ∧
    ProcessingViewV3.thresholds = ProcessingViewV1.thresholds ∧
    (∀ p t : Int, ProcessingViewV2.isCompleted p t = true ↔ p ≥ t) ∧
    (∀ p t : Int, ProcessingViewV3.isCompleted p t = true ↔ p ≥ t) ∧
    (∀ p t : Int, ProcessingViewV1.isCompleted p t = true ↔ p > t) := by
  refine ⟨rfl, rfl, rfl, ?_, ?_, ?_⟩ <;>
    intro p t <;>
    simp [ProcessingViewV1.isCompleted, ProcessingViewV2.isCompleted,
      ProcessingViewV3.isCompleted]

/-! ## Microphone recording timer (src/App.tsx lines 1045-1179, AudioRecorder) -/

/-- src/App.tsx line 1058: the per-tier recording cap in seconds. -/
def maxDuration (currentTier : String) : Nat :=
  if currentTier = "premium" then 120 else 30

/-- The AudioRecorder component state: the isRecording and isPaused hooks,
the duration counter, and whether the one-second interval is installed. -/
structure RecorderState where
  isRecording : Bool
  isPaused : Bool
  duration : Nat
  timerActive : Bool
  deriving Repr, DecidableEq

/-- src/App.tsx lines 1149-1157, stopRecording: guarded on isRecording;
stops the media recorder, resets the flags and clears the interval. -/
def stopRecording (s : RecorderState) : RecorderState :=
  if s.isRecording then
    { s with isRecording := false, isPaused := false, timerActive := false }
  else s

/-- One tick of the recording interval (src/App.tsx lines 1117-1126, and the
identical callback reinstalled on resume at lines 1163-1172): increment the
duration; on reaching the cap, stop the recording and clamp the duration to
the cap. A cleared interval does not tick. -/
def timerTick (maxD : Nat) (s : RecorderState) : RecorderState :=
  if s.timerActive then
    if s.duration + 1 ≥ maxD then
      { stopRecording s with duration := maxD }
    else
      { s with duration := s.duration + 1 }
  else s

/-- src/App.tsx lines 1112-1126, startRecording: begins recording with the
duration reset to 0 and the interval installed. -/
def startRecording (s : RecorderState) : RecorderState :=
  { s with isRecording := true, duration := 0, timerActive := true }

/-- src/App.tsx lines 1159-1179, pauseRecording: when recording, either
resumes (reinstalling the interval) or pauses (clearing it), toggling
isPaused. -/
def pauseRecording (s : RecorderState) : RecorderState :=
  if s.isRecording then
    if s.isPaused then
      { s with timerActive := true, isPaused := false }
    else
      { s with timerActive := false, isPaused := true }
  else s

/-- The user-visible events that drive the recorder after it started. -/
inductive RecEvent
  | tick
  | pauseResume
  | stop
  deriving Repr, DecidableEq

/-- Dispatch one recorder event. -/
def recStep (maxD : Nat) (s : RecorderState) : RecEvent → RecorderState
  | .tick => timerTick maxD s
  | .pauseResume => pauseRecording s
  | .stop => stopRecording s

/-- The recorder run over a sequence of events. -/
def runRecorder (maxD : Nat) (s : RecorderState) : List RecEvent → RecorderState
  | [] => s
  | e :: es => runRecorder maxD (recStep maxD s e) es

theorem stopRecording_duration (s : RecorderState) :
    (stopRecording s).duration = s.duration := by
  unfold stopRecording
  split <;> rfl

theorem pauseRecording_duration (s : RecorderState) :
    (pauseRecording s).duration = s.duration := by
  unfold pauseRecording
  split
  · split <;> rfl
  · rfl

theorem timerTick_duration_le (maxD : Nat) (s : RecorderState)
    (h : s.duration ≤ maxD) : (timerTick maxD s).duration ≤ maxD := by
  unfold timerTick
  split
  · split
    · simp
    next hn => simp only [RecorderState.mk.injEq]; omega
  · exact h

theorem recStep_duration_le (maxD : Nat) (s : RecorderState) (e : RecEvent)
    (h : s.duration ≤ maxD) : (recStep maxD s e).duration ≤ maxD := by
  cases e with
  | tick => exact timerTick_duration_le maxD s h
  | pauseResume =>
    show (pauseRecording s).duration ≤ maxD
    rw [pauseRecording_duration]; exact h
  | stop =>
    show (stopRecording s).duration ≤ maxD
    rw [stopRecording_duration]; exact h

theorem runRecorder_duration_le (maxD : Nat) (es : List RecEvent) :
    ∀ s : RecorderState, s.duration ≤ maxD →
      (runRecorder maxD s es).duration ≤ maxD := by
  induction es with
  | nil => intro s h; exact h
  | cons e es ih =>
    intro s h
    exact ih (recStep maxD s e) (recStep_duration_le maxD s e h)

/-- C8: the clip duration never exceeds the tier cap — 30 seconds for free,
120 for premium. From the moment recording starts (duration 0), any
sequence of one-second ticks, pause/resume toggles and stops keeps the
duration at or below the cap, and a tick that would reach the cap while the
timer runs and recording is on stops the recording, clears the timer and
clamps the duration to the cap; the interval reinstalled after a pause and
resume runs the very same tick. -/
theorem recording_duration_never_exceeds_cap :
    maxDuration "free" = 30 ∧
    maxDuration "premium" = 120 ∧
    (∀ (tier : String) (s0 : RecorderState) (es : List RecEvent),
       (runRecorder (maxDuration tier) (startRecording s0) es).duration ≤
         maxDuration tier) ∧
    (∀ (maxD : Nat) (s : RecorderState),
       s.timerActive = true → s.isRecording = true → s.duration + 1 ≥ maxD →
       (timerTick maxD s).duration = maxD ∧
       (timerTick maxD s).isRecording = false ∧
       (timerTick maxD s).timerActive = false) := by
  refine ⟨rfl, rfl, ?_, ?_⟩
  · intro tier s0 es
    exact runRecorder_duration_le (maxDuration tier) es (startRecording s0)
      (by simp [startRecording])
  · intro maxD s hA hR hge
    unfold timerTick stopRecording
    simp [hA, hR, hge]

/-- Witness for C8 at concrete inputs: a free-tier run with ticks around a
pause and resume stays at or below 30 seconds, and the 30th tick of a live
free-tier recording stops it at exactly 30. -/
theorem recording_duration_never_exceeds_cap_witness :
    (runRecorder (maxDuration "free")
        (startRecording ⟨false, false, 0, false⟩)
        [RecEvent.tick, RecEvent.pauseResume, RecEvent.pauseResume,
         RecEvent.tick]).duration ≤ maxDuration "free" ∧
    ((timerTick 30 ⟨true, false, 29, true⟩).duration = 30 ∧
     (timerTick 30 ⟨true, false, 29, true⟩).isRecording = false ∧
     (timerTick 30 ⟨true, false, 29, true⟩).timerActive = false) := by
  constructor
  · exact recording_duration_never_exceeds_cap.2.2.1 "free"
      ⟨false, false, 0, false⟩
      [RecEvent.tick, RecEvent.pauseResume, RecEvent.pauseResume, RecEvent.tick]
  · exact recording_duration_never_exceeds_cap.2.2.2 30
      ⟨true, false, 29, true⟩ rfl rfl (by decide)

/-! ## Hybrid fusion ranker (C9)

The ranking backend (the matcher and neural matcher behind the API) is not
among the UI sources; it is modelled from the specification here. -/

/-- Modelled from the spec: the documented default hybrid weight, kept as a
named constant (the backend configuration names it HYBRID_NEURAL_WEIGHT with
value 0.7, per the repository README; the backend source itself is missing
from src/). -/
def HYBRID_NEURAL_WEIGHT : ℚ := 7 / 10

/-- Modelled from the spec: a candidate song carrying the per-candidate
semantic score and fuzzy-lexical score the Hybrid Fusion Ranker consumes.
The backend source is missing from src/. -/
structure Candidate where
  songId : Nat
  semanticScore : ℚ
  fuzzyScore : ℚ
  deriving Repr, DecidableEq

/-- Modelled from the spec: `fused = w·semantic + (1−w)·fuzzyLexical`. The
backend source is missing from src/. -/
def fusedScore (w : ℚ) (c : Candidate) : ℚ :=
  w * c.semanticScore + (1 - w) * c.fuzzyScore

/-- Modelled from the spec: ranking comparator — scores descending, ties
broken by songId ascending for determinism (spec section 3, RankedMatch).
The backend source is missing from src/. -/
def rankBefore (score : Candidate → ℚ) (a b : Candidate) : Bool :=
  if score a = score b then a.songId ≤ b.songId else score b < score a

/-- Insert a candidate into a ranked list at its rank position. -/
def insertRanked (score : Candidate → ℚ) (c : Candidate) :
    List Candidate → List Candidate
  | [] => [c]
  | d :: ds =>
    if rankBefore score c d then c :: d :: ds else d :: insertRanked score c ds

/-- Modelled from the spec: the ranked order a scoring function induces on a
candidate snapshot (insertion sort by the ranking comparator). The backend
source is missing from src/. -/
def rankBy (score : Candidate → ℚ) : List Candidate → List Candidate
  | [] => []
  | c :: cs => insertRanked score c (rankBy score cs)

theorem rankBefore_congr (f g : Candidate → ℚ) (hfg : ∀ c, f c = g c)
    (a b : Candidate) : rankBefore f a b = rankBefore g a b := by
  unfold rankBefore
  rw [hfg a, hfg b]

theorem insertRanked_congr (f g : Candidate → ℚ) (hfg : ∀ c, f c = g c)
    (c : Candidate) : ∀ l : List Candidate,
      insertRanked f c l = insertRanked g c l := by
  intro l
  induction l with
  | nil => rfl
  | cons d ds ih =>
    unfold insertRanked
    rw [rankBefore_congr f g hfg c d, ih]

theorem rankBy_congr (f g : Candidate → ℚ) (hfg : ∀ c, f c = g c) :
    ∀ cs : List Candidate, rankBy f cs = rankBy g cs := by
  intro cs
  induction cs with
  | nil => rfl
  | cons c cs ih =>
    unfold rankBy
    rw [ih, insertRanked_congr f g hfg c]

theorem fusedScore_one (c : Candidate) : fusedScore 1 c = c.semanticScore := by
  unfold fusedScore
  ring

theorem fusedScore_zero (c : Candidate) : fusedScore 0 c = c.fuzzyScore := by
  unfold fusedScore
  ring

/-- C9: hybrid fusion computes fused = w·semantic + (1−w)·fuzzyLexical with
the configurable weight defaulting to the named constant 0.7; with w = 1 the
fused ranking order equals the semantic order exactly, and with w = 0 it
equals the fuzzy-lexical order exactly, for every candidate snapshot. -/
theorem hybrid_fusion_weight_extremes :
    HYBRID_NEURAL_WEIGHT = 7 / 10 ∧
    (∀ (w : ℚ) (c : Candidate),
       fusedScore w c = w * c.semanticScore + (1 - w) * c.fuzzyScore) ∧
    (∀ cs : List Candidate,
       rankBy (fusedScore 1) cs = rankBy Candidate.semanticScore cs) ∧
    (∀ cs : List Candidate,
       rankBy (fusedScore 0) cs = rankBy Candidate.fuzzyScore cs) := by
  refine ⟨rfl, fun w c => rfl, ?_, ?_⟩
  · exact rankBy_congr (fusedScore 1) Candidate.semanticScore fusedScore_one
  · exact rankBy_congr (fusedScore 0) Candidate.fuzzyScore fusedScore_zero

/-- Witness for C1 at a concrete input: the neural engine is locked for the
free tier precisely because it is not in the free engine allow-list. -/
theorem configModal_lock_policy_witness :
    isLocked "neural" tiersFree.engines = true ↔
      "neural" ∉ tiersFree.engines :=
  configModal_lock_policy.1 "neural" tiersFree.engines

/-- Witness for C7 (amended) at concrete inputs: displayed progress 10
reaches the preprocessing threshold in the at-least variant but displayed
progress 0 does not strictly exceed the queued threshold in the strict
variant. -/
theorem stage_completion_thresholds_witness :
    (ProcessingViewV2.isCompleted 10 10 = true ↔ (10 : Int) ≥ 10) ∧
    (ProcessingViewV1.isCompleted 0 0 = true ↔ (0 : Int) > 0) :=
  ⟨stage_completion_thresholds.2.2.2.1 10 10,
   stage_completion_thresholds.2.2.2.2.2 0 0⟩

/-- Witness for C9 at concrete inputs: the fused formula evaluated at the
default weight, and the weight-1 ranking of a two-candidate snapshot
agreeing with the semantic ranking. -/
theorem hybrid_fusion_weight_extremes_witness :
    fusedScore HYBRID_NEURAL_WEIGHT ⟨1, 3 / 4, 1 / 2⟩ =
      HYBRID_NEURAL_WEIGHT * (3 / 4) + (1 - HYBRID_NEURAL_WEIGHT) * (1 / 2) ∧
    rankBy (fusedScore 1) [⟨1, 3 / 4, 1 / 2⟩, ⟨2, 1 / 4, 9 / 10⟩] =
      rankBy Candidate.semanticScore [⟨1, 3 / 4, 1 / 2⟩, ⟨2, 1 / 4, 9 / 10⟩] :=
  ⟨hybrid_fusion_weight_extremes.2.1 HYBRID_NEURAL_WEIGHT ⟨1, 3 / 4, 1 / 2⟩,
   hybrid_fusion_weight_extremes.2.2.1 [⟨1, 3 / 4, 1 / 2⟩, ⟨2, 1 / 4, 9 / 10⟩]⟩
